import Mathlib

/-!
Shallow embedding of the card-issuance subsystem of the kijustyle/api
repository: the message codec (`buildCardIssueMessage`), the device
transport (`sendToCardServer`), the issuance orchestrator (`issueCard`,
`issueBatchCard`, and the legacy `issueCard` variant), and the batch
driver (`issueBatchCards`).  Stateful SQL code is modelled as explicit
state passing over a `DBState` value; the sequelize transaction is
modelled by accumulating the unit of work's writes and applying them
only on commit (rollback returns the untouched state).  The TCP socket
is modelled by the settlement of the promise that `sendToCardServer`
returns, computed from a timed trace of socket events.
-/

namespace CardIssuance

/-- SQL cell value: a string, a number, or NULL (JS `undefined` bound as a
replacement parameter also lands as NULL). -/
inductive Val
  | vstr (s : String)
  | vnum (n : Nat)
  | vnull
deriving DecidableEq, Repr

/-- Render a JS value in a template/`||`-chain position: `x || ''` maps the
falsy values `undefined`, `null`, `0`, `''` to the empty string, any other
number to its decimal digits, and any other string to itself.  This is the
per-field rendering of `buildCardIssueMessage`. -/
def valToField : Val → String
  | .vstr s => s
  | .vnum n => if n = 0 then "" else toString n
  | .vnull => ""

/-- Numeric reading of a cell with SQL `IFNULL(x, 0)` semantics. -/
def valNum0 : Val → Nat
  | .vnum n => n
  | _ => 0

/-- Lift the optional caller-supplied card count to a SQL cell
(`undefined` binds as NULL). -/
def optVal : Option Nat → Val
  | some n => .vnum n
  | none => .vnull

/-- One row of TB_CARD_ISSUE (append-only issuance history). -/
structure IssueRow where
  mNo : String
  dept : Val
  pos : Val
  cardCount : Val
  cardSno : Val
  cardType : Val
  createId : Val
deriving DecidableEq, Repr

/-- One row of TB_CARD (current card state, keyed by M_NO). -/
structure CardRow where
  mNo : String
  cardCount : Val
  cardStatus : String
  cardSno : Val
  cardType : Val
deriving DecidableEq, Repr

/-- One row of TB_CARD_BATCH_SAV (the batch worklist). -/
structure BatchRow where
  mNo : String
  createId : String
  cardType : String
deriving DecidableEq, Repr

/-- The columns of TB_MEMBER that the card-issuance queries read. -/
structure MemberRow where
  mNo : String
  name : String
  departmentName : String
  position : String
deriving DecidableEq, Repr

/-- The datastore as seen by the card-issuance service.  `photos` maps an
employee id to the base64 rendering of the stored photo blob. -/
structure DBState where
  members : List MemberRow
  photos : List (String × String)
  cards : List CardRow
  history : List IssueRow
  batch : List BatchRow
deriving DecidableEq, Repr

/-- One SQL write inside the issuance unit of work. -/
inductive Write
  | insertIssue (r : IssueRow)
  | upsertCard (r : CardRow)
  | deleteBatch (mNo createId : String)
deriving DecidableEq, Repr

/-- INSERT ... ON DUPLICATE KEY UPDATE on TB_CARD: replace the row with the
same M_NO if it exists, append otherwise. -/
def upsertCardRow (cards : List CardRow) (r : CardRow) : List CardRow :=
  if cards.any (fun c => c.mNo == r.mNo) then
    cards.map (fun c => if c.mNo == r.mNo then r else c)
  else
    cards ++ [r]

/-- Apply one write of the unit of work to the datastore. -/
def applyWrite (db : DBState) : Write → DBState
  | .insertIssue r => { db with history := db.history ++ [r] }
  | .upsertCard r => { db with cards := upsertCardRow db.cards r }
  | .deleteBatch e i =>
      { db with batch := db.batch.filter (fun b => !(b.mNo == e && b.createId == i)) }

/-- Commit a unit of work: apply its writes in order.  Rollback is modelled
by never applying them. -/
def applyWrites (db : DBState) (ws : List Write) : DBState :=
  ws.foldl applyWrite db

/-- Argument record of `buildCardIssueMessage`: the card data assembled by
`issueCard` / `issueBatchCard` before the device call. -/
structure CardData where
  no : String
  name : String
  department : String
  position : String
  cardCount : Val
  photoBlob : String
  cardType : String
deriving DecidableEq, Repr

/-- The `parts.join('|')` of the message builders. -/
def joinPipe : List String → String
  | [] => ""
  | [p] => p
  | p :: q :: rest => p ++ "|" ++ joinPipe (q :: rest)

/-- Character-level worker for splitting a frame on `'|'`. -/
def splitGo (cur : List Char) : List Char → List (List Char)
  | [] => [cur.reverse]
  | c :: cs => if c = '|' then cur.reverse :: splitGo [] cs else splitGo (c :: cur) cs

/-- Split a frame on the pipe delimiter (the decode direction of the claim's
round-trip; the device side is not part of this repository, so this is the
plain positional split the spec describes). -/
def splitOnPipe (s : String) : List String :=
  (splitGo [] s.data).map String.mk

/-- Message builder of src/src/services/cardService.js: immediate issuance,
mode "0", nine positional fields, falsy fields rendered as the empty
string.  The embedded issue date (`getCurrentDate()` in the source, the
current YYYYMMDD day) is passed explicitly as `today`. -/
def buildCardIssueMessage (cd : CardData) (today : String) : String :=
  joinPipe
    ["0", cd.no, cd.name, cd.department, cd.position,
     valToField cd.cardCount, cd.cardType, cd.photoBlob, today]

/-- Legacy message builder of src/unnamed/part_006 (first chunk): seven
fields, no cardType and no photo payload. -/
def buildCardIssueMessageLegacy (no name department position : String)
    (cardCount : Val) (today : String) : String :=
  joinPipe ["0", no, name, department, position, valToField cardCount, today]

/-- JS `String.prototype.padStart(3, '0')` on the decimal digits of `n`,
as used by `generateCardNumber`. -/
def pad3 (n : Nat) : String :=
  let s := toString n
  if s.length < 3 then String.mk (List.replicate (3 - s.length) '0') ++ s else s

/-- Card serial generator of src/unnamed/part_006.  `nowDigits` stands for
`Date.now().toString().slice(-6)`, passed explicitly. -/
def generateCardNumber (cardType : String) (cardCount : Nat) (nowDigits : String) : String :=
  let cardPre :=
    if cardType = "E" then "NFMC-EMP"
    else if cardType = "V" then "NFMC-VIS"
    else if cardType = "T" then "NFMC-TMP"
    else if cardType = "C" then "NFMC-CON"
    else "NFMC-UNK"
  cardPre ++ "-" ++ nowDigits ++ "-" ++ pad3 cardCount

/-- Does the character list start with the pattern? -/
def charsStartWith : List Char → List Char → Bool
  | [], _ => true
  | _ :: _, [] => false
  | p :: ps, c :: cs => p == c && charsStartWith ps cs

/-- Does the character list contain the pattern as a contiguous run? -/
def charsInclude (pat : List Char) : List Char → Bool
  | [] => charsStartWith pat []
  | c :: cs => charsStartWith pat (c :: cs) || charsInclude pat cs

/-- JS `String.prototype.includes`, used by the legacy response check. -/
def strIncludes (s pat : String) : Bool :=
  charsInclude pat.data s.data

/-- The `\x7b` character, kept out of character-literal syntax. -/
def lbrace : Char := Char.ofNat 123

/-- The `\x7d` character, kept out of character-literal syntax. -/
def rbrace : Char := Char.ofNat 125

/-- Drop leading JSON whitespace. -/
def skipWs : List Char → List Char
  | [] => []
  | c :: cs => if c = ' ' ∨ c = '\t' ∨ c = '\n' ∨ c = '\r' then skipWs cs else c :: cs

/-- Body of a JSON string up to its closing quote.  Escape sequences are not
modelled: a backslash makes the parse fail, shrinking the modelled domain of
`JSON.parse` without ever disagreeing with it on accepted inputs. -/
def parseStrGo (acc : List Char) : List Char → Option (String × List Char)
  | [] => none
  | c :: cs =>
    if c = '"' then some (String.mk acc.reverse, cs)
    else if c = '\\' then none
    else parseStrGo (c :: acc) cs

/-- A JSON string literal, including its opening quote. -/
def parseJsonString : List Char → Option (String × List Char)
  | c :: cs => if c = '"' then parseStrGo [] cs else none
  | [] => none

/-- The `"key":"value"` pairs of a flat JSON object, consuming the closing
brace.  `fuel` dominates the input length, so it never runs out on inputs
the parser accepts. -/
def parsePairs (fuel : Nat) (acc : List (String × String)) (cs : List Char) :
    Option (List (String × String) × List Char) :=
  match fuel with
  | 0 => none
  | fuel + 1 =>
    match parseJsonString (skipWs cs) with
    | none => none
    | some (k, r1) =>
      match skipWs r1 with
      | ':' :: r2 =>
        match parseJsonString (skipWs r2) with
        | none => none
        | some (v, r3) =>
          match skipWs r3 with
          | ',' :: r4 => parsePairs fuel (acc ++ [(k, v)]) r4
          | d :: r4 => if d = rbrace then some (acc ++ [(k, v)], r4) else none
          | [] => none
      | _ => none

/-- Model of `JSON.parse` restricted to flat JSON objects with string
values — the only shape the device protocol uses (`\x7b"result", "cardCSN"\x7d`).
Every other input is treated as a parse failure; the JSON forms this
excludes (numbers, arrays, nested objects) carry no string `result` field,
so excluding them only changes the text of the resulting failure message,
never whether the issuance attempt fails. -/
def parseJsonObj (s : String) : Option (List (String × String)) :=
  match skipWs s.data with
  | c :: r =>
    if c = lbrace then
      match skipWs r with
      | d :: r2 =>
        if d = rbrace then (if skipWs r2 = [] then some [] else none)
        else
          match parsePairs (s.length + 1) [] (d :: r2) with
          | some (ps, rest) => if skipWs rest = [] then some ps else none
          | none => none
      | [] => none
    else none
  | [] => none

/-- Field access `obj.key` on a parsed JSON object (later duplicate keys
shadow earlier ones, as in JS). -/
def jlookup (obj : List (String × String)) (k : String) : Option String :=
  (obj.reverse.find? (fun p => p.1 == k)).map (fun p => p.2)

/-- The text `parsedResponse.result` contributes to a template literal:
`undefined` prints as "undefined". -/
def resultStr (obj : List (String × String)) : String :=
  (jlookup obj "result").getD "undefined"

/-- Wrapper applied by the `catch (socketError)` blocks of both issuance
services. -/
def deviceWrap (m : String) : String :=
  "카드 발급 장비 연결 오류: " ++ m

/-- Device-reported failure message of the primary `issueCard`. -/
def resultFailMsg (c : String) : String :=
  "카드 발급 실패 - 결과코드: " ++ c

/-- Rejection message of the transport's timeout timer (a constant — the
source embeds no elapsed time in it). -/
def timeoutMsg : String := "카드 발급 서버 응답 시간 초과"

/-- Rejection message of the transport's `error` handler. -/
def connFailMsg (m : String) : String :=
  "카드 발급 서버 연결 실패: " ++ m

/-- Rejection message of the transport's `close` handler when no data was
received (note: no trailing period in the source). -/
def noResponseCloseMsg : String := "카드 발급 서버로부터 응답이 없습니다"

/-- Message of `issueCard`'s own empty-response guard (with a trailing
period in the source). -/
def noResponseCheckMsg : String := "카드 발급 서버로부터 응답이 없습니다."

/-- Stands for the engine-specific `SyntaxError` message that `JSON.parse`
throws on undecodable input. -/
def jsonSyntaxErrorMsg : String := "Unexpected token in JSON"

/-- Failure message of the legacy substring response check. -/
def legacyServerFailMsg (resp : String) : String :=
  "카드 발급 서버 처리 실패: " ++ resp

/-- Error sequelize raises when `rollback()` is called on a committed
transaction, as the legacy `issueCard`'s catch block does after its
post-commit `userData` ReferenceError. -/
def rollbackFinishedMsg : String :=
  "Transaction cannot be rolled back because it has been finished with state: commit"

/-- Lookup-failure message of `issueBatchCard`. -/
def employeeMissingMsg (e : String) : String :=
  "직원 정보를 찾을 수 없습니다. (사번: " ++ e ++ ")"

/-- Settlement of the promise returned by `sendToCardServer`: resolution
with the accumulated response text, rejection with an error message, or no
settlement at all (the promise hangs). -/
inductive SendOutcome
  | resolved (resp : String)
  | rejected (msg : String)
  | pending
deriving DecidableEq, Repr

/-- One observable socket event, tagged with the milliseconds elapsed since
the exchange started.  `data` chunks carry their MS949-decoded text. -/
inductive SockEvent
  | connected
  | data (chunk : String)
  | endEv
  | errorEv (emsg : String)
  | closeEv
deriving DecidableEq, Repr

/-- Promise-settlement semantics of `sendToCardServer` over a timed event
trace.  The single `setTimeout` timer is armed before `connect` and checked
against every event, so connect, write and read all race the same deadline;
`end` resolves the accumulated data, `error` rejects, and a `close` with no
data rejects with the no-response message while a `close` with data merely
clears the timer (the promise then never settles). -/
def sendAux (timeout : Nat) (timerActive : Bool) (acc : String) :
    List (Nat × SockEvent) → SendOutcome
  | [] => if timerActive then .rejected timeoutMsg else .pending
  | (t, ev) :: rest =>
    if timerActive ∧ timeout ≤ t then .rejected timeoutMsg
    else
      match ev with
      | .connected => sendAux timeout timerActive acc rest
      | .data chunk => sendAux timeout timerActive (acc ++ chunk) rest
      | .endEv => .resolved acc
      | .errorEv m => .rejected (connFailMsg m)
      | .closeEv =>
        if acc = "" then .rejected noResponseCloseMsg
        else sendAux timeout false acc rest

/-- The transport: one fresh socket per call, settled per `sendAux` from a
fresh timer and an empty receive buffer. -/
def sendToCardServer (timeout : Nat) (trace : List (Nat × SockEvent)) : SendOutcome :=
  sendAux timeout true "" trace

/-- Parameter record of the primary `issueCard` (destructured from
`params` in the source).  The caller-supplied card count may be absent
(`undefined`), hence `Option Nat`; `photoBlob` is the base64 payload. -/
structure IssueParams where
  employeeId : String
  name : String
  department : String
  position : String
  cardType : String
  cardCount : Option Nat
  photoBlob : String
  issuerId : String
deriving DecidableEq, Repr

/-- Success value assembled by the primary `issueCard` (the fields the
claims inspect). -/
structure IssueResult where
  employeeId : String
  cardCount : Option Nat
  cardCSN : String
deriving DecidableEq, Repr

/-- Terminal state of one issuance attempt: a commit carrying the new
datastore state, a raised error carrying the state the attempt left behind
(the untouched input state whenever the unit of work rolled back), or a
hang (the awaited promise never settled). -/
inductive IssueOutcome
  | committed (st : DBState) (res : IssueResult)
  | failed (st : DBState) (emsg : String)
  | stuck
deriving DecidableEq, Repr

/-- Effective card count of the primary `issueCard`:
`let cardCount = originalCardCount; if (cardType === 'P') cardCount = 0`. -/
def mainEffCount (p : IssueParams) : Option Nat :=
  if p.cardType = "P" then some 0 else p.cardCount

/-- The frame the primary `issueCard` hands to the transport. -/
def mainFrame (p : IssueParams) (today : String) : String :=
  buildCardIssueMessage
    ⟨p.employeeId, p.name, p.department, p.position,
     optVal (mainEffCount p), p.photoBlob, p.cardType⟩ today

/-- Primary card issuance orchestrator, `issueCard` of
src/src/services/cardService.js.  `device` maps the transmitted frame to
the settlement of the `sendToCardServer` promise; `today` is the
`getCurrentDate()` value.  Control flow mirrors the source: the PVC count
override, the device exchange wrapped in the socket try/catch, the
`result === '100'` check with RFID/placeholder CSN selection, then the
history insert and the card upsert committed as one transaction;
every raised error rolls the unit of work back, leaving the input state. -/
def issueCard (p : IssueParams) (device : String → SendOutcome) (today : String)
    (db : DBState) : IssueOutcome :=
  let cnt := mainEffCount p
  match device (mainFrame p today) with
  | .pending => .stuck
  | .rejected m => .failed db (deviceWrap m)
  | .resolved resp =>
    if resp = "" then .failed db (deviceWrap noResponseCheckMsg)
    else
      match parseJsonObj resp with
      | none => .failed db (deviceWrap jsonSyntaxErrorMsg)
      | some obj =>
        if resultStr obj = "100" then
          let cardCSN := if p.cardType = "R" then (jlookup obj "cardCSN").getD "" else "-"
          let hrow : IssueRow :=
            ⟨p.employeeId, .vstr p.department, .vstr p.position, optVal cnt,
             .vstr cardCSN, .vstr p.cardType, .vstr p.issuerId⟩
          let crow : CardRow :=
            ⟨p.employeeId, optVal cnt, "Y", .vstr cardCSN, .vstr p.cardType⟩
          .committed (applyWrites db [.insertIssue hrow, .upsertCard crow])
            ⟨p.employeeId, cnt, cardCSN⟩
        else .failed db (deviceWrap (resultFailMsg (resultStr obj)))

/-- The `SELECT IFNULL(MAX(CARD_COUNT), 0) FROM TB_CARD_ISSUE WHERE M_NO = e`
of the legacy `issueCard` (SQL MAX ignores NULL cells). -/
def legacyMaxCount (db : DBState) (employeeId : String) : Nat :=
  db.history.foldl
    (fun acc r =>
      if r.mNo = employeeId then
        match r.cardCount with
        | .vnum n => max acc n
        | _ => acc
      else acc) 0

/-- Legacy `let nextCardCount = cardCount; if (!nextCardCount) ...`:
a truthy (nonzero, present) caller count wins, otherwise 1 plus the
employee's maximum recorded count. -/
def legacyNextCount (p : IssueParams) (db : DBState) : Nat :=
  match p.cardCount with
  | some c => if c = 0 then legacyMaxCount db p.employeeId + 1 else c
  | none => legacyMaxCount db p.employeeId + 1

/-- The frame the legacy `issueCard` hands to the transport (raw caller
count, no cardType, no photo). -/
def legacyFrame (p : IssueParams) (today : String) : String :=
  buildCardIssueMessageLegacy p.employeeId p.name p.department p.position
    (optVal p.cardCount) today

/-- Legacy `issueCard` of src/unnamed/part_006 (first chunk).  Its response
check is a substring match for "100" / "OK"; its INSERT binds the raw
caller-supplied `cardCount` (not the computed `nextCardCount`, which only
feeds `generateCardNumber` and the return value); and after COMMIT its
return statement reads the undefined name `userData`, so the catch block
then calls `rollback()` on the finished transaction and the call always
ends in a raised error — with the inserted row already committed. -/
def issueCardLegacy (p : IssueParams) (device : String → SendOutcome)
    (today nowDigits : String) (db : DBState) : IssueOutcome :=
  let nextCardCount := legacyNextCount p db
  let cardSno := generateCardNumber p.cardType nextCardCount nowDigits
  match device (legacyFrame p today) with
  | .pending => .stuck
  | .rejected m => .failed db (deviceWrap m)
  | .resolved resp =>
    if resp = "" ∨ (strIncludes resp "100" = false ∧ strIncludes resp "OK" = false) then
      .failed db (deviceWrap (legacyServerFailMsg resp))
    else
      let hrow : IssueRow :=
        ⟨p.employeeId, .vstr p.department, .vstr p.position, optVal p.cardCount,
         .vstr cardSno, .vstr p.cardType, .vstr p.issuerId⟩
      .failed (applyWrites db [.insertIssue hrow]) rollbackFinishedMsg

/-- Row produced by `issueBatchCard`'s joined lookup over
TB_CARD_BATCH_SAV, TB_MEMBER, TB_PHOTO and TB_CARD. -/
structure BatchEmployee where
  batchRow : BatchRow
  member : MemberRow
  photo : Option String
  nextCount : Nat
deriving DecidableEq, Repr

/-- The `getEmployeeQuery` join of `issueBatchCard`: the worklist entry for
(employeeId, issuerId), inner-joined with the member row, left-joined with
the photo and the current card (`IFNULL(c.card_count, 0) + 1`). -/
def lookupBatchEmployee (db : DBState) (employeeId issuerId : String) :
    Option BatchEmployee :=
  match db.batch.find? (fun b => b.mNo == employeeId && b.createId == issuerId) with
  | none => none
  | some b =>
    match db.members.find? (fun m => m.mNo == b.mNo) with
    | none => none
    | some m =>
      let photo := (db.photos.find? (fun q => q.1 == b.mNo)).map (fun q => q.2)
      let nextCount :=
        (match db.cards.find? (fun c => c.mNo == b.mNo) with
         | some c => valNum0 c.cardCount
         | none => 0) + 1
      some ⟨b, m, photo, nextCount⟩

/-- The frame `issueBatchCard` hands to the transport: member snapshot
fields, the computed count for RFID or the truthy string "0" for other
types, and the base64 photo (empty when no photo row exists). -/
def batchFrame (e : BatchEmployee) (today : String) : String :=
  buildCardIssueMessage
    ⟨e.member.mNo, e.member.name, e.member.departmentName, e.member.position,
     (if e.batchRow.cardType = "R" then .vnum e.nextCount else .vstr "0"),
     e.photo.getD "", e.batchRow.cardType⟩ today

/-- Per-item batch issuance, `issueBatchCard` of
src/src/services/cardService.js: one transaction spanning the joined
lookup, the device exchange, the history insert, the worklist delete and
the card upsert.  Source slips embedded faithfully: the CSN branch tests
`employeeResult.cardType` (camelCase, undefined on the SQL row), so the
serial recorded is always "-"; and the insert/upsert replacement objects
evaluate `employeeResult.card_type = 'R' ? card_count : '0'` — an
assignment, truthy condition — so both the CARD_COUNT and the CARD_TYPE
cells receive the numeric `card_count`. -/
def issueBatchCard (employeeId issuerId : String) (device : String → SendOutcome)
    (today : String) (db : DBState) : IssueOutcome :=
  match lookupBatchEmployee db employeeId issuerId with
  | none => .failed db (employeeMissingMsg employeeId)
  | some e =>
    match device (batchFrame e today) with
    | .pending => .stuck
    | .rejected m => .failed db (deviceWrap m)
    | .resolved resp =>
      if resp = "" then .failed db (deviceWrap noResponseCheckMsg)
      else
        match parseJsonObj resp with
        | none => .failed db (deviceWrap jsonSyntaxErrorMsg)
        | some obj =>
          if resultStr obj = "100" then
            let cardCSN := "-"
            let hrow : IssueRow :=
              ⟨e.member.mNo, .vstr e.member.departmentName, .vstr e.member.position,
               .vnum e.nextCount, .vstr cardCSN, .vnum e.nextCount, .vstr issuerId⟩
            let crow : CardRow :=
              ⟨e.member.mNo, .vnum e.nextCount, "Y", .vstr cardCSN, .vnum e.nextCount⟩
            .committed
              (applyWrites db
                [.insertIssue hrow, .deleteBatch employeeId issuerId, .upsertCard crow])
              ⟨e.member.mNo, some e.nextCount, cardCSN⟩
          else .failed db (deviceWrap (resultFailMsg (resultStr obj)))

/-- One entry of the batch driver's result list. -/
structure ItemResult where
  seq : Nat
  employeeId : String
  success : Bool
  detail : String
deriving DecidableEq, Repr

/-- Loop body of the batch driver: each worklist item is attempted in its
own unit of work; the per-item try/catch turns any raised error into a
failure entry and the loop continues.  `device seq` is the settlement of
the item's own socket exchange.  A hung exchange (`stuck`) hangs the whole
run, hence the `Option`. -/
def batchGo (issuerId : String) (device : Nat → String → SendOutcome) (today : String) :
    Nat → List String → DBState → Option (DBState × List ItemResult)
  | _, [], db => some (db, [])
  | seq, e :: rest, db =>
    match issueBatchCard e issuerId (device seq) today db with
    | .committed db' _ =>
      (batchGo issuerId device today (seq + 1) rest db').map
        (fun pr => (pr.1, ⟨seq, e, true, ""⟩ :: pr.2))
    | .failed db' m =>
      (batchGo issuerId device today (seq + 1) rest db').map
        (fun pr => (pr.1, ⟨seq, e, false, m⟩ :: pr.2))
    | .stuck => none

/-- Batch issuance driver: the sequential loop of `issueBatchCards`
(src/unnamed/part_006) driving, per worklist item, the per-item
transactional unit of work `issueBatchCard` of
src/src/services/cardService.js — the two code sites the batch claims
name.  Sequence numbers start at 1. -/
def issueBatchCards (issuerId : String) (items : List String)
    (device : Nat → String → SendOutcome) (today : String) (db : DBState) :
    Option (DBState × List ItemResult) :=
  batchGo issuerId device today 1 items db

/-- Modelled from the spec: the response-interpretation order §4.1 asks
implementers for — "parse JSON first and fall back to substring matching,
surfacing a clear decode-failure error if neither matches".  This decoding
strategy appears in no code path of the repository; it exists here only to
be compared with what `issueCard` / `issueCardLegacy` actually do. -/
def specInterpretResponse (resp : String) : Except String String :=
  match parseJsonObj resp with
  | some obj =>
    if resultStr obj = "100" then .ok ((jlookup obj "cardCSN").getD "")
    else .error (resultFailMsg (resultStr obj))
  | none =>
    if strIncludes resp "100" || strIncludes resp "OK" then .ok resp
    else .error "decode failure"

/-! ### Codec lemmas: splitting a joined frame recovers its fields -/

theorem splitGo_no_pipe (l : List Char) (h : ∀ c ∈ l, c ≠ '|') (cur : List Char) :
    splitGo cur l = [cur.reverse ++ l] := by
  induction l generalizing cur with
  | nil => simp [splitGo]
  | cons c cs ih =>
    have hc : c ≠ '|' := h c (by simp)
    simp only [splitGo, if_neg hc]
    rw [ih (fun d hd => h d (by simp [hd]))]
    simp

theorem splitGo_pipe_cons (l rest : List Char) (h : ∀ c ∈ l, c ≠ '|') (cur : List Char) :
    splitGo cur (l ++ '|' :: rest) = (cur.reverse ++ l) :: splitGo [] rest := by
  induction l generalizing cur with
  | nil => simp [splitGo]
  | cons c cs ih =>
    have hc : c ≠ '|' := h c (by simp)
    simp only [List.cons_append, splitGo, if_neg hc, List.append_eq]
    rw [ih (fun d hd => h d (by simp [hd]))]
    simp

theorem splitOnPipe_joinPipe (parts : List String) (hne : parts ≠ [])
    (h : ∀ p ∈ parts, ∀ c ∈ p.data, c ≠ '|') :
    splitOnPipe (joinPipe parts) = parts := by
  induction parts with
  | nil => exact absurd rfl hne
  | cons p ps ih =>
    cases ps with
    | nil =>
      simp only [joinPipe, splitOnPipe]
      rw [splitGo_no_pipe p.data (h p (by simp)) []]
      simp
    | cons q rest =>
      have hdata : (p ++ "|" ++ joinPipe (q :: rest)).data
          = p.data ++ '|' :: (joinPipe (q :: rest)).data := by
        simp [String.data_append]
      simp only [joinPipe, splitOnPipe, hdata]
      rw [splitGo_pipe_cons p.data _ (h p (by simp)) []]
      simp only [List.reverse_nil, List.nil_append, List.map_cons]
      have ihq := ih (by simp) (fun r hr => h r (by simp [hr]))
      simp only [splitOnPipe] at ihq
      simp [ihq]

/-- C5 — amended.  The frame built by `buildCardIssueMessage` is a pure
function of the card data and the embedded issue date (so deterministic
apart from the date); its pipe-split is exactly mode "0", then the supplied
employeeId, name, department, position, the rendered card count, cardType,
photo payload, and the date, in that order — so the split recovers the four
string fields and the cardType verbatim, and recovers the decimal digits of
the card count whenever the count is a nonzero number; a zero or absent
count renders as the empty string (the source replaces falsy fields by ''),
which is what blocks the unrestricted round-trip the claim states. -/
theorem buildCardIssueMessage_splitRoundTrip (cd : CardData) (today : String)
    (h0 : ∀ c ∈ cd.no.data, c ≠ '|') (h1 : ∀ c ∈ cd.name.data, c ≠ '|')
    (h2 : ∀ c ∈ cd.department.data, c ≠ '|') (h3 : ∀ c ∈ cd.position.data, c ≠ '|')
    (h4 : ∀ c ∈ (valToField cd.cardCount).data, c ≠ '|')
    (h5 : ∀ c ∈ cd.cardType.data, c ≠ '|') (h6 : ∀ c ∈ cd.photoBlob.data, c ≠ '|')
    (h7 : ∀ c ∈ today.data, c ≠ '|') :
    splitOnPipe (buildCardIssueMessage cd today)
      = ["0", cd.no, cd.name, cd.department, cd.position,
         valToField cd.cardCount, cd.cardType, cd.photoBlob, today]
    ∧ (∀ n, cd.cardCount = .vnum n → n ≠ 0 → valToField cd.cardCount = toString n) := by
  constructor
  · apply splitOnPipe_joinPipe
    · simp
    · intro p hp
      simp only [List.mem_cons] at hp
      rcases hp with rfl | rfl | rfl | rfl | rfl | rfl | rfl | rfl | rfl | hp
      · decide
      · exact h0
      · exact h1
      · exact h2
      · exact h3
      · exact h4
      · exact h5
      · exact h6
      · exact h7
      · simp at hp
  · intro n hn hnz
    simp [valToField, hn, hnz]

/-- C5 — counterexample to the claim as stated: with the PVC placeholder
count 0 (a perfectly valid input — `issueCard` produces it for every PVC
request), the frame's cardCount field is the empty string, so splitting the
frame does not recover the supplied count's rendering "0". -/
theorem buildCardIssueMessage_zeroCount_cex :
    splitOnPipe (buildCardIssueMessage ⟨"E1", "Kim", "Dev", "Mgr", .vnum 0, "ph", "R"⟩ "20260101")
      = ["0", "E1", "Kim", "Dev", "Mgr", "", "R", "ph", "20260101"]
    ∧ ("" : String) ≠ toString 0 := by
  constructor
  · rfl
  · decide

/-- C10 — a card count of the number 0 (the PVC placeholder) renders as the
empty string in the frame, not as "0", because `buildCardIssueMessage`
replaces falsy field values by '' before joining; the resulting frame is
byte-identical to one built with no count at all. -/
theorem buildCardIssueMessage_zeroCount_empty (cd : CardData) (today : String) :
    buildCardIssueMessage { cd with cardCount := .vnum 0 } today
      = buildCardIssueMessage { cd with cardCount := .vnull } today
    ∧ valToField (.vnum 0) = "" ∧ valToField (.vnum 0) ≠ "0" := by
  refine ⟨?_, by decide, by decide⟩
  simp [buildCardIssueMessage, valToField]

/-- Witness for the amended C5 theorem at a concrete RFID input. -/
theorem buildCardIssueMessage_splitRoundTrip_witness :
    splitOnPipe (buildCardIssueMessage ⟨"E7", "Lee", "Ops", "Dir", .vnum 2, "AA==", "R"⟩ "20260101")
      = ["0", "E7", "Lee", "Ops", "Dir", "2", "R", "AA==", "20260101"] := by
  have h := buildCardIssueMessage_splitRoundTrip
    ⟨"E7", "Lee", "Ops", "Dir", .vnum 2, "AA==", "R"⟩ "20260101"
    (by decide) (by decide) (by decide) (by decide) (by decide) (by decide)
    (by decide) (by decide)
  have h2 : valToField (.vnum 2) = "2" := by decide
  rw [h.1, h2]

/-! ### Transport theorems -/

/-- C7 — amended.  The one `setTimeout` timer of `sendToCardServer` is
armed before the connect and checked against every later trace instant, so
an exchange still in its connect, write or read phase at the deadline is
preempted and rejected; a trace that never produces a settling event is
rejected by the same timer; the rejection carries the fixed message
`timeoutMsg` (the elapsed time is not part of it — the HTTP controller adds
`processingTime` separately); and an `issueCard` attempt whose exchange was
rejected by the timer raises the wrapped error with the unit of work rolled
back, persisting zero rows. -/
theorem sendToCardServer_timeout (T t : Nat) (acc : String) (e : SockEvent)
    (rest : List (Nat × SockEvent)) (p : IssueParams) (dev : String → SendOutcome)
    (today : String) (db : DBState) :
    (T ≤ t → sendAux T true acc ((t, e) :: rest) = .rejected timeoutMsg)
    ∧ sendToCardServer T [] = .rejected timeoutMsg
    ∧ (dev (mainFrame p today) = .rejected timeoutMsg →
        issueCard p dev today db = .failed db (deviceWrap timeoutMsg)) := by
  refine ⟨fun h => ?_, rfl, fun h => ?_⟩
  · simp [sendAux, h]
  · simp [issueCard, h]

/-- Witness for the C7 theorem: a device that is still sending data when
the 100 ms deadline passes is timed out, and the issuance attempt ends in
the wrapped timeout error with the datastore untouched. -/
theorem sendToCardServer_timeout_witness :
    sendAux 100 true "" ((200, .data "partial") :: []) = .rejected timeoutMsg
    ∧ issueCard ⟨"E1", "Kim", "Dev", "Mgr", "R", some 1, "", "adm"⟩
        (fun _ => .rejected timeoutMsg) "20260101" ⟨[], [], [], [], []⟩
        = .failed ⟨[], [], [], [], []⟩ (deviceWrap timeoutMsg) := by
  have h := sendToCardServer_timeout 100 200 "" (.data "partial") []
    ⟨"E1", "Kim", "Dev", "Mgr", "R", some 1, "", "adm"⟩
    (fun _ => .rejected timeoutMsg) "20260101" ⟨[], [], [], [], []⟩
  exact ⟨h.1 (by decide), h.2.2 rfl⟩

/-- C7 — counterexample to the claim as stated: the timeout rejection is
one constant string, so two exchanges timing out after very different
elapsed times (a 10 s window and a 60 s window, the two configured defaults
in the source) fail with byte-identical errors — the error cannot be
carrying the elapsed time. -/
theorem sendToCardServer_timeout_cex :
    sendToCardServer 10000 [] = .rejected timeoutMsg
    ∧ sendToCardServer 60000 [] = .rejected timeoutMsg
    ∧ sendToCardServer 10000 [] = sendToCardServer 60000 []
    ∧ (10000 : Nat) ≠ 60000 := by
  exact ⟨rfl, rfl, rfl, by decide⟩

/-- C8 — amended.  Only a `close` that arrives with no `end` event and zero
bytes received makes `sendToCardServer` itself reject with the no-response
message; a graceful zero-byte close fires `end` first, so the promise
resolves with the empty string — and it is `issueCard`'s own
`!socketResponse` guard that then fails the attempt with the (wrapped)
no-response message, unit of work rolled back.  Either way the issuance
attempt fails and an empty reply is never treated as a device response. -/
theorem sendToCardServer_emptyReply (T t : Nat) (rest : List (Nat × SockEvent))
    (p : IssueParams) (dev : String → SendOutcome) (today : String) (db : DBState) :
    (t < T → sendAux T true "" ((t, .closeEv) :: rest) = .rejected noResponseCloseMsg)
    ∧ (t < T → sendAux T true "" ((t, .endEv) :: rest) = .resolved "")
    ∧ (dev (mainFrame p today) = .resolved "" →
        issueCard p dev today db = .failed db (deviceWrap noResponseCheckMsg)) := by
  refine ⟨fun h => ?_, fun h => ?_, fun h => ?_⟩
  · simp [sendAux, Nat.not_le_of_lt h]
  · simp [sendAux, Nat.not_le_of_lt h]
  · simp [issueCard, h]

/-- Witness for the C8 theorem at concrete traces and a concrete issuance
attempt. -/
theorem sendToCardServer_emptyReply_witness :
    sendAux 60000 true "" ((5, .closeEv) :: []) = .rejected noResponseCloseMsg
    ∧ sendAux 60000 true "" ((5, .endEv) :: []) = .resolved ""
    ∧ issueCard ⟨"E1", "Kim", "Dev", "Mgr", "R", some 1, "", "adm"⟩
        (fun _ => .resolved "") "20260101" ⟨[], [], [], [], []⟩
        = .failed ⟨[], [], [], [], []⟩ (deviceWrap noResponseCheckMsg) := by
  have h := sendToCardServer_emptyReply 60000 5 []
    ⟨"E1", "Kim", "Dev", "Mgr", "R", some 1, "", "adm"⟩
    (fun _ => .resolved "") "20260101" ⟨[], [], [], [], []⟩
  exact ⟨h.1 (by decide), h.2.1 (by decide), h.2.2 rfl⟩

/-- C8 — counterexample to the claim as stated: a connection that closes
gracefully with zero bytes received (the `end` event fires, then `close`)
RESOLVES the `sendToCardServer` promise with the empty string — the
transport does not fail with the no-response error on this input. -/
theorem sendToCardServer_emptyReply_cex :
    sendToCardServer 60000 [(1, .connected), (5, .endEv), (6, .closeEv)] = .resolved ""
    ∧ SendOutcome.resolved "" ≠ .rejected noResponseCloseMsg := by
  exact ⟨rfl, by decide⟩

/-! ### Orchestrator theorems -/

theorem resultStr_eq_100_iff (obj : List (String × String)) :
    resultStr obj = "100" ↔ jlookup obj "result" = some "100" := by
  unfold resultStr
  cases h : jlookup obj "result" with
  | none => simp [h]
  | some c => simp [h]

/-- C2 — a transport rejection, or a parsed device response whose result
code is not "100", makes `issueCard` raise the wrapped error with the unit
of work rolled back: the returned state is the input state, so neither the
TB_CARD_ISSUE insert nor the TB_CARD upsert survives; and, in general,
every failing `issueCard` run leaves the datastore exactly as it found
it. -/
theorem issueCard_failure_rollsBack (p : IssueParams) (dev : String → SendOutcome)
    (today : String) (db : DBState) :
    (∀ m, dev (mainFrame p today) = .rejected m →
       issueCard p dev today db = .failed db (deviceWrap m))
    ∧ (∀ resp obj, dev (mainFrame p today) = .resolved resp → resp ≠ "" →
        parseJsonObj resp = some obj → resultStr obj ≠ "100" →
        issueCard p dev today db = .failed db (deviceWrap (resultFailMsg (resultStr obj))))
    ∧ (∀ st m, issueCard p dev today db = .failed st m → st = db) := by
  refine ⟨fun m h => by simp [issueCard, h],
          fun resp obj h1 h2 h3 h4 => by simp [issueCard, h1, h2, h3, h4],
          fun st m h => ?_⟩
  simp only [issueCard] at h
  repeat' split at h
  all_goals first
    | (injection h with h1 h2; exact h1.symm)
    | injection h

/-- Witness for the C2 theorem: a device answering result code "200" fails
the attempt and the datastore (here holding one member row) is returned
unchanged. -/
theorem issueCard_failure_rollsBack_witness :
    issueCard ⟨"E1", "Kim", "Dev", "Mgr", "R", some 1, "", "adm"⟩
        (fun _ => .resolved "\x7b\"result\":\"200\"\x7d") "20260101"
        ⟨[⟨"E1", "Kim", "Dev", "Mgr"⟩], [], [], [], []⟩
      = .failed ⟨[⟨"E1", "Kim", "Dev", "Mgr"⟩], [], [], [], []⟩
          (deviceWrap (resultFailMsg "200")) := by
  have h := (issueCard_failure_rollsBack ⟨"E1", "Kim", "Dev", "Mgr", "R", some 1, "", "adm"⟩
    (fun _ => .resolved "\x7b\"result\":\"200\"\x7d") "20260101"
    ⟨[⟨"E1", "Kim", "Dev", "Mgr"⟩], [], [], [], []⟩).2.1
    "\x7b\"result\":\"200\"\x7d" [("result", "200")] rfl (by decide) (by decide) (by decide)
  exact h

/-- C3 — with a parsed (JSON) device response, `issueCard` commits exactly
when the result field is the literal "100"; any other result code `c`
raises the wrapped device-failure message, which carries `c` verbatim as a
suffix; and in the legacy substring path a response containing neither
"100" nor "OK" likewise fails, with the response embedded in the
message. -/
theorem issueCard_resultCode_iff (p : IssueParams) (dev : String → SendOutcome)
    (today : String) (db : DBState) (resp : String) (obj : List (String × String))
    (hdev : dev (mainFrame p today) = .resolved resp) (hne : resp ≠ "")
    (hparse : parseJsonObj resp = some obj) :
    ((∃ db' r, issueCard p dev today db = .committed db' r)
       ↔ jlookup obj "result" = some "100")
    ∧ (∀ c, jlookup obj "result" = some c → c ≠ "100" →
        issueCard p dev today db = .failed db (deviceWrap (resultFailMsg c))
        ∧ ∃ pre, deviceWrap (resultFailMsg c) = pre ++ c)
    ∧ (∀ q dev2 t2 n2 db2 resp2, dev2 (legacyFrame q t2) = .resolved resp2 →
        strIncludes resp2 "100" = false → strIncludes resp2 "OK" = false →
        issueCardLegacy q dev2 t2 n2 db2
          = .failed db2 (deviceWrap (legacyServerFailMsg resp2))) := by
  refine ⟨⟨fun he => ?_, fun hj => ?_⟩, fun c hc hcne => ⟨?_, ?_⟩,
          fun q dev2 t2 n2 db2 resp2 h2 hi1 hi2 => ?_⟩
  · obtain ⟨db', r, h⟩ := he
    by_cases hr : resultStr obj = "100"
    · exact (resultStr_eq_100_iff obj).mp hr
    · simp [issueCard, hdev, hne, hparse, hr] at h
  · have hr : resultStr obj = "100" := (resultStr_eq_100_iff obj).mpr hj
    refine ⟨applyWrites db
        [.insertIssue ⟨p.employeeId, .vstr p.department, .vstr p.position,
            optVal (mainEffCount p),
            .vstr (if p.cardType = "R" then (jlookup obj "cardCSN").getD "" else "-"),
            .vstr p.cardType, .vstr p.issuerId⟩,
          .upsertCard ⟨p.employeeId, optVal (mainEffCount p), "Y",
            .vstr (if p.cardType = "R" then (jlookup obj "cardCSN").getD "" else "-"),
            .vstr p.cardType⟩],
      ⟨p.employeeId, mainEffCount p,
        if p.cardType = "R" then (jlookup obj "cardCSN").getD "" else "-"⟩, ?_⟩
    simp [issueCard, hdev, hne, hparse, hr]
  · have hrs : resultStr obj = c := by simp [resultStr, hc]
    simp [issueCard, hdev, hne, hparse, hrs, hcne]
  · exact ⟨"카드 발급 장비 연결 오류: " ++ "카드 발급 실패 - 결과코드: ",
      (String.append_assoc "카드 발급 장비 연결 오류: " "카드 발급 실패 - 결과코드: " c).symm⟩
  · simp [issueCardLegacy, h2, hi1, hi2]

/-- Witness for the C3 theorem: result "100" commits, result "999" fails
with the code embedded in the message. -/
theorem issueCard_resultCode_iff_witness :
    (∃ db' r, issueCard ⟨"E1", "Kim", "Dev", "Mgr", "R", some 1, "", "adm"⟩
        (fun _ => .resolved "\x7b\"result\":\"100\"\x7d") "20260101"
        ⟨[], [], [], [], []⟩ = .committed db' r)
    ∧ issueCard ⟨"E1", "Kim", "Dev", "Mgr", "R", some 1, "", "adm"⟩
        (fun _ => .resolved "\x7b\"result\":\"999\"\x7d") "20260101"
        ⟨[], [], [], [], []⟩
      = .failed ⟨[], [], [], [], []⟩ (deviceWrap (resultFailMsg "999")) := by
  constructor
  · exact ((issueCard_resultCode_iff ⟨"E1", "Kim", "Dev", "Mgr", "R", some 1, "", "adm"⟩
      (fun _ => .resolved "\x7b\"result\":\"100\"\x7d") "20260101" ⟨[], [], [], [], []⟩
      "\x7b\"result\":\"100\"\x7d" [("result", "100")] rfl (by decide) (by decide)).1).mpr
      (by decide)
  · exact ((issueCard_resultCode_iff ⟨"E1", "Kim", "Dev", "Mgr", "R", some 1, "", "adm"⟩
      (fun _ => .resolved "\x7b\"result\":\"999\"\x7d") "20260101" ⟨[], [], [], [], []⟩
      "\x7b\"result\":\"999\"\x7d" [("result", "999")] rfl (by decide) (by decide)).2.1
      "999" (by decide) (by decide)).1

/-- C4 — on the device reply result "100" with cardCSN "ABC123", the
committed history record's CARD_SNO is "ABC123" for an RFID ('R') request
and the placeholder "-" for any other card type (PVC included), and that
record is exactly the row appended to TB_CARD_ISSUE by the committed unit
of work. -/
theorem issueCard_committedSerial (p : IssueParams) (dev : String → SendOutcome)
    (today : String) (db : DBState) (resp : String) (obj : List (String × String))
    (hdev : dev (mainFrame p today) = .resolved resp) (hne : resp ≠ "")
    (hparse : parseJsonObj resp = some obj)
    (hres : jlookup obj "result" = some "100")
    (hcsn : jlookup obj "cardCSN" = some "ABC123") :
    ∃ hrow crow,
      issueCard p dev today db
        = .committed (applyWrites db [.insertIssue hrow, .upsertCard crow])
            ⟨p.employeeId, mainEffCount p, if p.cardType = "R" then "ABC123" else "-"⟩
      ∧ hrow.cardSno = .vstr (if p.cardType = "R" then "ABC123" else "-")
      ∧ (applyWrites db [.insertIssue hrow, .upsertCard crow]).history
          = db.history ++ [hrow] := by
  have hr : resultStr obj = "100" := (resultStr_eq_100_iff obj).mpr hres
  have hc : (jlookup obj "cardCSN").getD "" = "ABC123" := by simp [hcsn]
  refine ⟨⟨p.employeeId, .vstr p.department, .vstr p.position, optVal (mainEffCount p),
      .vstr (if p.cardType = "R" then "ABC123" else "-"), .vstr p.cardType,
      .vstr p.issuerId⟩,
    ⟨p.employeeId, optVal (mainEffCount p), "Y",
      .vstr (if p.cardType = "R" then "ABC123" else "-"), .vstr p.cardType⟩,
    ?_, rfl, by simp [applyWrites, applyWrite]⟩
  by_cases hR : p.cardType = "R"
  · simp [issueCard, hdev, hne, hparse, hr, hR, hc]
  · simp [issueCard, hdev, hne, hparse, hr, hR]

/-- Witness for the C4 theorem at one RFID and one PVC request against the
same device reply. -/
theorem issueCard_committedSerial_witness :
    (∃ hrow crow,
      issueCard ⟨"E1", "Kim", "Dev", "Mgr", "R", some 1, "", "adm"⟩
          (fun _ => .resolved "\x7b\"result\":\"100\",\"cardCSN\":\"ABC123\"\x7d")
          "20260101" ⟨[], [], [], [], []⟩
        = .committed (applyWrites ⟨[], [], [], [], []⟩
            [.insertIssue hrow, .upsertCard crow]) ⟨"E1", some 1, "ABC123"⟩
      ∧ hrow.cardSno = .vstr "ABC123")
    ∧ (∃ hrow crow,
      issueCard ⟨"E1", "Kim", "Dev", "Mgr", "P", some 1, "", "adm"⟩
          (fun _ => .resolved "\x7b\"result\":\"100\",\"cardCSN\":\"ABC123\"\x7d")
          "20260101" ⟨[], [], [], [], []⟩
        = .committed (applyWrites ⟨[], [], [], [], []⟩
            [.insertIssue hrow, .upsertCard crow]) ⟨"E1", some 0, "-"⟩
      ∧ hrow.cardSno = .vstr "-") := by
  constructor
  · obtain ⟨hrow, crow, h1, h2, h3⟩ := issueCard_committedSerial
      ⟨"E1", "Kim", "Dev", "Mgr", "R", some 1, "", "adm"⟩
      (fun _ => .resolved "\x7b\"result\":\"100\",\"cardCSN\":\"ABC123\"\x7d")
      "20260101" ⟨[], [], [], [], []⟩
      "\x7b\"result\":\"100\",\"cardCSN\":\"ABC123\"\x7d"
      [("result", "100"), ("cardCSN", "ABC123")] rfl (by decide) (by decide)
      (by decide) (by decide)
    exact ⟨hrow, crow, h1, h2⟩
  · obtain ⟨hrow, crow, h1, h2, h3⟩ := issueCard_committedSerial
      ⟨"E1", "Kim", "Dev", "Mgr", "P", some 1, "", "adm"⟩
      (fun _ => .resolved "\x7b\"result\":\"100\",\"cardCSN\":\"ABC123\"\x7d")
      "20260101" ⟨[], [], [], [], []⟩
      "\x7b\"result\":\"100\",\"cardCSN\":\"ABC123\"\x7d"
      [("result", "100"), ("cardCSN", "ABC123")] rfl (by decide) (by decide)
      (by decide) (by decide)
    exact ⟨hrow, crow, h1, h2⟩

/-- C9 — amended.  No code path falls back from JSON parsing to substring
matching: the primary `issueCard` consults `JSON.parse` only — an
unparsable response fails the attempt with the wrapped syntax-error
message, whatever substrings it contains — while the legacy `issueCard`
consults substring matching on "100"/"OK" only, never attempting JSON (a
response containing either substring passes its check and the attempt
proceeds to the insert/commit). -/
theorem issueCard_noDecodeFallback :
    (∀ p dev today db resp, dev (mainFrame p today) = .resolved resp → resp ≠ "" →
       parseJsonObj resp = none →
       issueCard p dev today db = .failed db (deviceWrap jsonSyntaxErrorMsg))
    ∧ (∀ q dev2 t2 n2 db2 resp2, dev2 (legacyFrame q t2) = .resolved resp2 →
       strIncludes resp2 "100" = true ∨ strIncludes resp2 "OK" = true →
       issueCardLegacy q dev2 t2 n2 db2
         = .failed (applyWrites db2
             [.insertIssue ⟨q.employeeId, .vstr q.department, .vstr q.position,
               optVal q.cardCount,
               .vstr (generateCardNumber q.cardType (legacyNextCount q db2) n2),
               .vstr q.cardType, .vstr q.issuerId⟩])
             rollbackFinishedMsg) := by
  constructor
  · intro p dev today db resp h1 h2 h3
    simp [issueCard, h1, h2, h3]
  · intro q dev2 t2 n2 db2 resp2 h2 hinc
    have hne : resp2 ≠ "" := by
      intro he
      subst he
      rcases hinc with h | h <;> exact absurd h (by decide)
    rcases hinc with h | h
    · simp [issueCardLegacy, h2, hne, h]
    · simp [issueCardLegacy, h2, hne, h]

/-- Witness for the C9 theorem: the raw reply "OK" is rejected by the
primary path (JSON parse failure, no fallback) and accepted by the legacy
substring path. -/
theorem issueCard_noDecodeFallback_witness :
    issueCard ⟨"E1", "Kim", "Dev", "Mgr", "R", some 1, "", "adm"⟩
        (fun _ => .resolved "OK") "20260101" ⟨[], [], [], [], []⟩
      = .failed ⟨[], [], [], [], []⟩ (deviceWrap jsonSyntaxErrorMsg)
    ∧ issueCardLegacy ⟨"E1", "Kim", "Dev", "Mgr", "R", some 1, "", "adm"⟩
        (fun _ => .resolved "OK") "20260101" "123456" ⟨[], [], [], [], []⟩
      = .failed (applyWrites ⟨[], [], [], [], []⟩
          [.insertIssue ⟨"E1", .vstr "Dev", .vstr "Mgr", optVal (some 1),
            .vstr (generateCardNumber "R" (legacyNextCount
              ⟨"E1", "Kim", "Dev", "Mgr", "R", some 1, "", "adm"⟩
              ⟨[], [], [], [], []⟩) "123456"),
            .vstr "R", .vstr "adm"⟩])
          rollbackFinishedMsg := by
  constructor
  · exact issueCard_noDecodeFallback.1 ⟨"E1", "Kim", "Dev", "Mgr", "R", some 1, "", "adm"⟩
      (fun _ => .resolved "OK") "20260101" ⟨[], [], [], [], []⟩ "OK" rfl (by decide)
      (by decide)
  · exact issueCard_noDecodeFallback.2 ⟨"E1", "Kim", "Dev", "Mgr", "R", some 1, "", "adm"⟩
      (fun _ => .resolved "OK") "20260101" "123456" ⟨[], [], [], [], []⟩ "OK" rfl
      (Or.inr (by decide))

/-- C9 — counterexample to the claim as stated: the spec-modelled decoder
(JSON first, then substring fallback) accepts the raw reply "OK", but the
client's `issueCard` fails that same reply with a JSON decode error — it
never falls back to substring matching. -/
theorem issueCard_noDecodeFallback_cex :
    specInterpretResponse "OK" = .ok "OK"
    ∧ issueCard ⟨"E2", "Park", "HR", "Lead", "R", some 1, "", "adm"⟩
        (fun _ => .resolved "OK") "20260101" ⟨[], [], [], [], []⟩
      = .failed ⟨[], [], [], [], []⟩ (deviceWrap jsonSyntaxErrorMsg) := by
  exact ⟨rfl, by decide⟩

/-- C1 — amended.  In the primary `issueCard` the count recorded in
TB_CARD_ISSUE (and returned) is 0 for every PVC ('P') request, and
otherwise is exactly the caller-supplied count — absent included (NULL is
recorded; the service substitutes no computed value).  The
`1 + max(existing CARD_COUNT)` computation lives in the legacy variant
only, where a caller-supplied nonzero count takes precedence over it, and
its value feeds only the generated card serial and the returned result —
the legacy INSERT still binds the raw caller-supplied count. -/
theorem issueCard_cardCount (p : IssueParams) (dev : String → SendOutcome)
    (today nowDigits : String) (db : DBState) :
    (∀ db' r, issueCard p dev today db = .committed db' r →
       r.cardCount = mainEffCount p
       ∧ (p.cardType = "P" → r.cardCount = some 0)
       ∧ (p.cardType ≠ "P" → r.cardCount = p.cardCount)
       ∧ ∃ hrow, db'.history = db.history ++ [hrow]
           ∧ hrow.cardCount = optVal (mainEffCount p))
    ∧ (∀ resp, dev (legacyFrame p today) = .resolved resp →
        strIncludes resp "100" = true →
        ∃ hrow, issueCardLegacy p dev today nowDigits db
            = .failed (applyWrites db [.insertIssue hrow]) rollbackFinishedMsg
          ∧ hrow.cardCount = optVal p.cardCount
          ∧ hrow.cardSno
              = .vstr (generateCardNumber p.cardType (legacyNextCount p db) nowDigits))
    ∧ (∀ c, p.cardCount = some c → c ≠ 0 → legacyNextCount p db = c)
    ∧ (p.cardCount = none →
        legacyNextCount p db = legacyMaxCount db p.employeeId + 1) := by
  refine ⟨fun db' r h => ?_, fun resp h1 h2 => ?_, fun c h1 h2 => ?_, fun h1 => ?_⟩
  · simp only [issueCard] at h
    repeat' split at h
    all_goals cases h
    all_goals refine ⟨rfl, fun hP => by simp [mainEffCount, hP],
      fun hP => by simp [mainEffCount, hP], ?_⟩
    all_goals simp only [applyWrites, applyWrite, List.foldl_cons, List.foldl_nil]
    all_goals exact ⟨_, rfl, rfl⟩
  · have hne : resp ≠ "" := by
      intro he; subst he; exact absurd h2 (by decide)
    refine ⟨⟨p.employeeId, .vstr p.department, .vstr p.position, optVal p.cardCount,
      .vstr (generateCardNumber p.cardType (legacyNextCount p db) nowDigits),
      .vstr p.cardType, .vstr p.issuerId⟩, ?_, rfl, rfl⟩
    simp [issueCardLegacy, h1, hne, h2]
  · simp [legacyNextCount, h1, h2]
  · simp [legacyNextCount, h1]

/-- Witness for the C1 theorem: a PVC request with caller count 7 commits
count 0; an RFID request with caller count 4 commits count 4; a legacy run
with no caller count against a history whose maximum count is 2 computes
next count 3 for the serial, yet records NULL. -/
theorem issueCard_cardCount_witness :
    (∃ db' r, issueCard ⟨"E1", "Kim", "Dev", "Mgr", "P", some 7, "", "adm"⟩
        (fun _ => .resolved "\x7b\"result\":\"100\"\x7d") "20260101"
        ⟨[], [], [], [], []⟩ = .committed db' r ∧ r.cardCount = some 0)
    ∧ (∃ db' r, issueCard ⟨"E1", "Kim", "Dev", "Mgr", "R", some 4, "", "adm"⟩
        (fun _ => .resolved "\x7b\"result\":\"100\"\x7d") "20260101"
        ⟨[], [], [], [], []⟩ = .committed db' r ∧ r.cardCount = some 4)
    ∧ legacyNextCount ⟨"E1", "Kim", "Dev", "Mgr", "R", none, "", "adm"⟩
        ⟨[], [], [], [⟨"E1", .vstr "Dev", .vstr "Mgr", .vnum 2, .vstr "S", .vstr "R",
          .vstr "adm"⟩], []⟩ = 3 := by
  refine ⟨?_, ?_, ?_⟩
  · have h : issueCard ⟨"E1", "Kim", "Dev", "Mgr", "P", some 7, "", "adm"⟩
        (fun _ => .resolved "\x7b\"result\":\"100\"\x7d") "20260101"
        ⟨[], [], [], [], []⟩
        = .committed (applyWrites ⟨[], [], [], [], []⟩
            [.insertIssue ⟨"E1", .vstr "Dev", .vstr "Mgr", .vnum 0, .vstr "-",
              .vstr "P", .vstr "adm"⟩,
             .upsertCard ⟨"E1", .vnum 0, "Y", .vstr "-", .vstr "P"⟩])
            ⟨"E1", some 0, "-"⟩ := by decide
    obtain ⟨hcc, _, _, _⟩ := (issueCard_cardCount
      ⟨"E1", "Kim", "Dev", "Mgr", "P", some 7, "", "adm"⟩
      (fun _ => .resolved "\x7b\"result\":\"100\"\x7d") "20260101" "123456"
      ⟨[], [], [], [], []⟩).1 _ _ h
    exact ⟨_, _, h, by rw [hcc]; decide⟩
  · have h : issueCard ⟨"E1", "Kim", "Dev", "Mgr", "R", some 4, "", "adm"⟩
        (fun _ => .resolved "\x7b\"result\":\"100\"\x7d") "20260101"
        ⟨[], [], [], [], []⟩
        = .committed (applyWrites ⟨[], [], [], [], []⟩
            [.insertIssue ⟨"E1", .vstr "Dev", .vstr "Mgr", .vnum 4, .vstr "",
              .vstr "R", .vstr "adm"⟩,
             .upsertCard ⟨"E1", .vnum 4, "Y", .vstr "", .vstr "R"⟩])
            ⟨"E1", some 4, ""⟩ := by decide
    obtain ⟨hcc, _, _, _⟩ := (issueCard_cardCount
      ⟨"E1", "Kim", "Dev", "Mgr", "R", some 4, "", "adm"⟩
      (fun _ => .resolved "\x7b\"result\":\"100\"\x7d") "20260101" "123456"
      ⟨[], [], [], [], []⟩).1 _ _ h
    exact ⟨_, _, h, by rw [hcc]; decide⟩
  · exact (issueCard_cardCount ⟨"E1", "Kim", "Dev", "Mgr", "R", none, "", "adm"⟩
      (fun _ => .resolved "") "20260101" "123456"
      ⟨[], [], [], [⟨"E1", .vstr "Dev", .vstr "Mgr", .vnum 2, .vstr "S", .vstr "R",
        .vstr "adm"⟩], []⟩).2.2.2 rfl

/-- C1 — counterexample to the claim as stated: an RFID request with no
caller-supplied count, for an employee whose existing maximum CARD_COUNT is
2 (so the claim demands a recorded count of 3), commits a history row whose
CARD_COUNT is NULL — the primary `issueCard` never computes `1 + max`. -/
theorem issueCard_cardCount_cex :
    issueCard ⟨"E1", "Kim", "Dev", "Mgr", "R", none, "ph", "adm"⟩
        (fun _ => .resolved "\x7b\"result\":\"100\",\"cardCSN\":\"ABC123\"\x7d")
        "20260101"
        ⟨[⟨"E1", "Kim", "Dev", "Mgr"⟩], [], [],
         [⟨"E1", .vstr "Dev", .vstr "Mgr", .vnum 2, .vstr "S1", .vstr "R", .vstr "adm"⟩], []⟩
      = .committed
          ⟨[⟨"E1", "Kim", "Dev", "Mgr"⟩], [],
           [⟨"E1", .vnull, "Y", .vstr "ABC123", .vstr "R"⟩],
           [⟨"E1", .vstr "Dev", .vstr "Mgr", .vnum 2, .vstr "S1", .vstr "R", .vstr "adm"⟩,
            ⟨"E1", .vstr "Dev", .vstr "Mgr", .vnull, .vstr "ABC123", .vstr "R", .vstr "adm"⟩],
           []⟩
          ⟨"E1", none, "ABC123"⟩
    ∧ legacyMaxCount
        ⟨[⟨"E1", "Kim", "Dev", "Mgr"⟩], [], [],
         [⟨"E1", .vstr "Dev", .vstr "Mgr", .vnum 2, .vstr "S1", .vstr "R", .vstr "adm"⟩], []⟩
        "E1" + 1 = 3
    ∧ Val.vnull ≠ Val.vnum 3 := by
  refine ⟨by decide, by decide, by decide⟩

/-! ### Batch driver lemmas -/

theorem issueBatchCard_failed_state {e i : String} {dev : String → SendOutcome}
    {today : String} {db st : DBState} {m : String}
    (h : issueBatchCard e i dev today db = .failed st m) : st = db := by
  simp only [issueBatchCard] at h
  repeat' split at h
  all_goals first
    | (injection h with h1 h2; exact h1.symm)
    | injection h

theorem issueBatchCard_committed_state {e i : String} {dev : String → SendOutcome}
    {today : String} {db st : DBState} {r : IssueResult}
    (h : issueBatchCard e i dev today db = .committed st r) :
    ∃ hrow, st.history = db.history ++ [hrow]
      ∧ st.batch = db.batch.filter (fun b => !(b.mNo == e && b.createId == i)) := by
  simp only [issueBatchCard] at h
  repeat' split at h
  all_goals cases h
  simp only [applyWrites, applyWrite, List.foldl_cons, List.foldl_nil]
  exact ⟨_, rfl, trivial⟩

theorem batchGo_spec (issuerId : String) (dev : Nat → String → SendOutcome)
    (today : String) :
    ∀ (items : List String) (seq : Nat) (db dbf : DBState) (rs : List ItemResult),
      batchGo issuerId dev today seq items db = some (dbf, rs) →
      rs.map ItemResult.employeeId = items
      ∧ (∀ b ∈ dbf.batch, b ∈ db.batch)
      ∧ (∃ tail, dbf.history = db.history ++ tail)
      ∧ dbf.history.length
          = db.history.length + (rs.filter (fun r => r.success)).length
      ∧ (∀ r ∈ rs, r.success = true → ∀ b ∈ dbf.batch,
          ¬(b.mNo = r.employeeId ∧ b.createId = issuerId))
      ∧ (∀ b ∈ db.batch, b.mNo ∉ items → b ∈ dbf.batch)
      ∧ (items.Nodup → ∀ r ∈ rs, r.success = false → ∀ b ∈ db.batch,
          b.mNo = r.employeeId → b.createId = issuerId → b ∈ dbf.batch) := by
  intro items
  induction items with
  | nil =>
    intro seq db dbf rs h
    simp only [batchGo, Option.some.injEq, Prod.mk.injEq] at h
    obtain ⟨rfl, rfl⟩ := h
    exact ⟨rfl, fun b hb => hb, ⟨[], by simp⟩, by simp, by simp, fun b hb _ => hb, by simp⟩
  | cons e rest ih =>
    intro seq db dbf rs h
    simp only [batchGo] at h
    split at h
    case h_3 => simp at h
    case h_1 db' r0 hstep =>
      cases hrec : batchGo issuerId dev today (seq + 1) rest db' with
      | none => rw [hrec] at h; simp at h
      | some pr =>
        obtain ⟨prdb, prrs⟩ := pr
        rw [hrec] at h
        simp only [Option.map_some', Option.some.injEq, Prod.mk.injEq] at h
        obtain ⟨rfl, rfl⟩ := h
        obtain ⟨ih1, ih2, ih3, ih4, ih5, ih6, ih7⟩ := ih (seq + 1) db' prdb prrs hrec
        obtain ⟨hrow, hhist, hbatch⟩ := issueBatchCard_committed_state hstep
        have hkeep : ∀ b : BatchRow, b ∈ db.batch → b.mNo ≠ e → b ∈ db'.batch := by
          intro b hb hne
          rw [hbatch, List.mem_filter]
          exact ⟨hb, by simp [hne]⟩
        have hdrop : ∀ b : BatchRow, b ∈ db'.batch → b ∈ db.batch := by
          intro b hb
          rw [hbatch, List.mem_filter] at hb
          exact hb.1
        have hdel : ∀ b : BatchRow, b ∈ db'.batch →
            ¬(b.mNo = e ∧ b.createId = issuerId) := by
          intro b hb hc
          rw [hbatch, List.mem_filter] at hb
          rcases hc with ⟨hc1, hc2⟩
          simp [hc1, hc2] at hb
        refine ⟨by simp [ih1], fun b hb => hdrop b (ih2 b hb), ?_, ?_, ?_, ?_, ?_⟩
        · obtain ⟨tail, htail⟩ := ih3
          exact ⟨hrow :: tail, by rw [htail, hhist]; simp⟩
        · obtain ⟨tail, htail⟩ := ih3
          simp only [List.filter_cons]
          rw [ih4, hhist]
          simp [Nat.add_assoc, Nat.add_comm 1]
        · intro r hr hsucc b hb
          rcases List.mem_cons.mp hr with rfl | hr
          · exact hdel b (ih2 b hb)
          · exact ih5 r hr hsucc b hb
        · intro b hb hnotin
          have hne : b.mNo ≠ e := fun hc => hnotin (by simp [hc])
          exact ih6 b (hkeep b hb hne) (fun hc => hnotin (by simp [hc]))
        · intro hnd r hr hfail b hb hmno hcid
          rcases List.mem_cons.mp hr with rfl | hr
          · simp at hfail
          · have hrest : r.employeeId ∈ rest := by
              rw [← ih1]; exact List.mem_map_of_mem ItemResult.employeeId hr
            have hne : b.mNo ≠ e := by
              rw [hmno]
              intro hc
              exact (List.nodup_cons.mp hnd).1 (hc ▸ hrest)
            exact ih7 (List.nodup_cons.mp hnd).2 r hr hfail b (hkeep b hb hne) hmno hcid
    case h_2 db' m0 hstep =>
      cases hrec : batchGo issuerId dev today (seq + 1) rest db' with
      | none => rw [hrec] at h; simp at h
      | some pr =>
        obtain ⟨prdb, prrs⟩ := pr
        rw [hrec] at h
        simp only [Option.map_some', Option.some.injEq, Prod.mk.injEq] at h
        obtain ⟨rfl, rfl⟩ := h
        obtain rfl := issueBatchCard_failed_state hstep
        obtain ⟨ih1, ih2, ih3, ih4, ih5, ih6, ih7⟩ := ih (seq + 1) db' prdb prrs hrec
        refine ⟨by simp [ih1], ih2, ih3, ?_, ?_, ?_, ?_⟩
        · simp only [List.filter_cons]
          simpa using ih4
        · intro r hr hsucc b hb
          rcases List.mem_cons.mp hr with rfl | hr
          · simp at hsucc
          · exact ih5 r hr hsucc b hb
        · intro b hb hnotin
          exact ih6 b hb (fun hc => hnotin (by simp [hc]))
        · intro hnd r hr hfail b hb hmno hcid
          rcases List.mem_cons.mp hr with rfl | hr
          · have hne : b.mNo ∉ rest := by
              rw [hmno]
              exact (List.nodup_cons.mp hnd).1
            exact ih6 b hb hne
          · exact ih7 (List.nodup_cons.mp hnd).2 r hr hfail b hb hmno hcid

/-- C6 — for every worklist and per-exchange settlement that lets the run
complete, the batch driver returns exactly one per-item result, in order,
for every input item (`rs.map employeeId = items`); no item's failure
aborts the run or removes another item's committed work — the history only
ever grows, by exactly one row per successful item; a successful item's
worklist entry is gone from the final state (it was deleted inside that
item's own committed unit of work, per `issueBatchCard`); and a failed
item's worklist entry survives the whole run. -/
theorem issueBatchCards_perItem (issuerId : String) (items : List String)
    (dev : Nat → String → SendOutcome) (today : String) (db dbf : DBState)
    (rs : List ItemResult)
    (h : issueBatchCards issuerId items dev today db = some (dbf, rs)) :
    rs.map ItemResult.employeeId = items
    ∧ (∃ tail, dbf.history = db.history ++ tail)
    ∧ dbf.history.length
        = db.history.length + (rs.filter (fun r => r.success)).length
    ∧ (∀ r ∈ rs, r.success = true → ∀ b ∈ dbf.batch,
        ¬(b.mNo = r.employeeId ∧ b.createId = issuerId))
    ∧ (items.Nodup → ∀ r ∈ rs, r.success = false → ∀ b ∈ db.batch,
        b.mNo = r.employeeId → b.createId = issuerId → b ∈ dbf.batch) := by
  obtain ⟨h1, _, h3, h4, h5, _, h7⟩ :=
    batchGo_spec issuerId dev today items 1 db dbf rs h
  exact ⟨h1, h3, h4, h5, h7⟩

/-- Device behavior of the spec's three-item batch scenario: the second
exchange is rejected by the device (result "200"), the others succeed. -/
def batchDemoDev : Nat → String → SendOutcome := fun seq _ =>
  if seq = 2 then .resolved "\x7b\"result\":\"200\"\x7d"
  else .resolved "\x7b\"result\":\"100\"\x7d"

/-- Initial datastore of the three-item batch scenario: three members, a
three-entry worklist for issuer "adm", no history. -/
def batchDemoDb : DBState :=
  ⟨[⟨"E1", "Kim", "Dev", "Mgr"⟩, ⟨"E2", "Park", "HR", "Lead"⟩,
    ⟨"E3", "Choi", "Sec", "Staff"⟩],
   [], [], [],
   [⟨"E1", "adm", "R"⟩, ⟨"E2", "adm", "R"⟩, ⟨"E3", "adm", "R"⟩]⟩

/-- Final datastore of the three-item batch scenario, as the driver leaves
it: two committed history rows (E1 and E3), the E2 worklist entry still
queued. -/
def batchDemoFinal : DBState :=
  ⟨[⟨"E1", "Kim", "Dev", "Mgr"⟩, ⟨"E2", "Park", "HR", "Lead"⟩,
    ⟨"E3", "Choi", "Sec", "Staff"⟩],
   [],
   [⟨"E1", .vnum 1, "Y", .vstr "-", .vnum 1⟩, ⟨"E3", .vnum 1, "Y", .vstr "-", .vnum 1⟩],
   [⟨"E1", .vstr "Dev", .vstr "Mgr", .vnum 1, .vstr "-", .vnum 1, .vstr "adm"⟩,
    ⟨"E3", .vstr "Sec", .vstr "Staff", .vnum 1, .vstr "-", .vnum 1, .vstr "adm"⟩],
   [⟨"E2", "adm", "R"⟩]⟩

/-- Result list of the three-item batch scenario. -/
def batchDemoResults : List ItemResult :=
  [⟨1, "E1", true, ""⟩,
   ⟨2, "E2", false, deviceWrap (resultFailMsg "200")⟩,
   ⟨3, "E3", true, ""⟩]

/-- Witness for the C6 theorem on the spec's own scenario: three worklist
items, the second rejected by the device; the result list covers all three
in order, exactly the two successful issuances are persisted, and the
failed item's worklist entry survives. -/
theorem issueBatchCards_perItem_witness :
    batchDemoResults.map ItemResult.employeeId = ["E1", "E2", "E3"]
    ∧ batchDemoFinal.history.length = 2
    ∧ BatchRow.mk "E2" "adm" "R" ∈ batchDemoFinal.batch := by
  have h : issueBatchCards "adm" ["E1", "E2", "E3"] batchDemoDev "20260101" batchDemoDb
      = some (batchDemoFinal, batchDemoResults) := by decide
  obtain ⟨h1, _, h3, _, h7⟩ := issueBatchCards_perItem "adm" ["E1", "E2", "E3"]
    batchDemoDev "20260101" batchDemoDb batchDemoFinal batchDemoResults h
  refine ⟨h1, ?_, ?_⟩
  · rw [h3]; decide
  · exact h7 (by decide) ⟨2, "E2", false, deviceWrap (resultFailMsg "200")⟩
      (by simp [batchDemoResults]) rfl ⟨"E2", "adm", "R"⟩ (by simp [batchDemoDb]) rfl rfl

end CardIssuance
